import Mathlib

/-!
Verification development for the grbl (KeyMe fork) runtime core:
the SysTick deferred-callback scheduler (systick.c) and the runtime
execution dispatcher (protocol.c).

The definitions below are shallow embeddings of the C source.  Machine
integers are modelled as `Nat`; the AVR target is little-endian with
2-byte function pointers and no struct padding, so `callback_t`
occupies 10 bytes (8-byte `uint64_t callback_time` followed by the
2-byte pointer).  The callback array is modelled both at struct level
(for insertion/sorting, which the C code performs element-wise) and at
byte level (for `systick_service_callbacks`, whose `memmove` argument
is a byte count).
-/

/-- Capacity of the callback array, `#define MAX_CALLBACKS 32` in systick.h. -/
def MAX_CALLBACKS : Nat := 32

/-- The `callback_t` struct of systick.c: an absolute fire time
(`uint64_t callback_time`) and a function pointer (`cb_function`),
the latter modelled by its 16-bit pointer value. -/
structure callback_t where
  callback_time : Nat
  cb_function : Nat
deriving DecidableEq

/-- Little-endian byte encoding of an 8-byte `uint64_t`. -/
def encode_u64le (n : Nat) : List Nat :=
  [n % 256, n / 256 % 256, n / 256 ^ 2 % 256, n / 256 ^ 3 % 256,
   n / 256 ^ 4 % 256, n / 256 ^ 5 % 256, n / 256 ^ 6 % 256, n / 256 ^ 7 % 256]

/-- Little-endian byte encoding of a 2-byte AVR function pointer. -/
def encode_u16le (n : Nat) : List Nat :=
  [n % 256, n / 256 % 256]

/-- `sizeof(callback_t)` on the AVR target: 8 + 2 bytes, no padding. -/
def sizeof_callback_t : Nat := 10

/-- Byte image of one `callback_t`. -/
def encode_callback (c : callback_t) : List Nat :=
  encode_u64le c.callback_time ++ encode_u16le c.cb_function

/-- Decode an 8-byte little-endian `uint64_t` from the head of a byte list. -/
def decode_u64le (bs : List Nat) : Nat :=
  (bs.take 8).foldr (fun b acc => b + 256 * acc) 0

/-- Decode a 2-byte little-endian pointer from the head of a byte list. -/
def decode_u16le (bs : List Nat) : Nat :=
  (bs.take 2).foldr (fun b acc => b + 256 * acc) 0

/-- Read `systick_callbacks_array[i]` from the byte image of the array. -/
def read_callback (mem : List Nat) (i : Nat) : callback_t :=
  { callback_time := decode_u64le (mem.drop (i * sizeof_callback_t)),
    cb_function := decode_u16le (mem.drop (i * sizeof_callback_t + 8)) }

/-- `memmove(dst, src, n)` on a byte image: copy `n` bytes starting at
offset `src` to offset `dst` (as if through a temporary buffer, which is
what `memmove` guarantees). -/
def memmove_bytes (mem : List Nat) (dst src n : Nat) : List Nat :=
  mem.take dst ++ (mem.drop src).take n ++ mem.drop (dst + n)

/-- Byte image of a whole callback array. -/
def encode_array (entries : List callback_t) : List Nat :=
  (entries.map encode_callback).flatten

/-- State touched by `systick_service_callbacks`: the byte image of
`systick_callbacks_array`, `systick_len`, the `SysTick` counter, and a
trace of the `cb_function` pointers invoked so far. -/
structure SystickState where
  mem : List Nat
  systick_len : Nat
  sysTick : Nat
  fired : List Nat
deriving DecidableEq

/-- Shallow embedding of `systick_service_callbacks` (systick.c):
if `systick_callbacks_array[0].callback_time >= SysTick` the entry's
function is invoked, then
`memmove(&array[0], &array[1], systick_len - 1)` shifts the array and
`systick_len` is decremented.  Note the third `memmove` argument is the
verbatim `systick_len - 1` of the source, a count of BYTES, while
`&array[1]` is `sizeof_callback_t` bytes into the array.  (For
`systick_len = 0` the C expression underflows to a huge `size_t`; this
model is only used at `systick_len ≥ 1`.) -/
def systick_service_callbacks (s : SystickState) : SystickState :=
  let c0 := read_callback s.mem 0
  if s.sysTick ≤ c0.callback_time then
    { s with
      fired := s.fired ++ [c0.cb_function],
      mem := memmove_bytes s.mem 0 sizeof_callback_t (s.systick_len - 1),
      systick_len := s.systick_len - 1 }
  else s

/-- Comparator `cmp` of systick.c, used by `qsort`: returns 1 when the
first entry's `callback_time` is smaller, -1 when it is larger. -/
def cmp_fn (a b : callback_t) : Int :=
  if a.callback_time < b.callback_time then 1
  else if b.callback_time < a.callback_time then -1
  else 0

/-- Insert an element into a list already ordered consistently with
`cmp` (an element goes before the first element `b` with `cmp_fn a b ≤ 0`). -/
def cmp_ordered_insert (a : callback_t) : List callback_t → List callback_t
  | [] => [a]
  | b :: rest => if cmp_fn a b ≤ 0 then a :: b :: rest else b :: cmp_ordered_insert a rest

/-- Model of C `qsort` with comparator `cmp` (named `cmp_fn` here; plain `cmp` is taken by Mathlib): an insertion sort whose
output is ordered consistently with `cmp`.  `qsort` guarantees exactly
this ordering; on pairwise-distinct keys the result is the unique such
permutation, so the model coincides with any conforming `qsort`. -/
def qsort_by_cmp (l : List callback_t) : List callback_t :=
  l.foldr cmp_ordered_insert []

/-- `systick_sort_callback_array` (systick.c):
`qsort(systick_callbacks_array, systick_len, sizeof(callback_t), cmp)` —
sorts the first `systick_len` entries, leaves the rest in place. -/
def systick_sort_callback_array (arr : List callback_t) (len : Nat) : List callback_t :=
  qsort_by_cmp (arr.take len) ++ arr.drop len

/-- Shallow embedding of `systick_register_callback` (systick.c):
builds `to_insert` with `callback_time = SysTick + ms_later`, writes it
at `systick_callbacks_array[systick_len]`, increments `systick_len`,
then sorts.  The C function performs the store with no bounds check; a
store past the end of the fixed `MAX_CALLBACKS` array is out of bounds
(undefined behavior), modelled as `none`. -/
def systick_register_callback (sysTick : Nat) (arr : List callback_t) (len : Nat)
    (ms_later : Nat) (func : Nat) : Option (List callback_t × Nat) :=
  let callback_time := sysTick + ms_later
  let to_insert : callback_t := { callback_time := callback_time, cb_function := func }
  if len < arr.length then
    some (systick_sort_callback_array (arr.set len to_insert) (len + 1), len + 1)
  else
    none

/-- The all-zero `callback_t`, image of the BSS-initialized array. -/
def zero_cb : callback_t := { callback_time := 0, cb_function := 0 }

/-- Two successive registrations (fire times 5 then 10, from `SysTick = 0`),
starting from the zero-initialized empty array. -/
def c3_regs : Option (List callback_t × Nat) :=
  match systick_register_callback 0 (List.replicate MAX_CALLBACKS zero_cb) 0 5 1 with
  | none => none
  | some p => systick_register_callback 0 p.1 p.2 10 2

/-!
Embedding of the runtime execution dispatcher (protocol.c).

`SYS_EXEC` is the volatile runtime flag word; its `EXEC_*` bit
constants live in system.h, which is not part of this source tree.
Modelled from the spec: "RuntimeFlags — a word of independent event
bits", so the word is a record of independent Booleans.  Likewise the
`STATE_*` constants are one-hot bits ("MachineState — enumerated
variant, exactly one active at a time"), modelled as an enumeration;
the C bitmask tests `sys.state & (STATE_A | STATE_B)` become
membership tests.  External collaborators (planner, stepper, report
functions, pins, settings) are modelled by an environment record plus
a trace of the calls the dispatcher makes.
-/

/-- The machine states of `sys.state`. -/
inductive MachineState
  | IDLE
  | ALARM
  | QUEUED
  | CYCLE
  | HOLD
  | HOMING
  | FORCESERVO
  | PROBING
deriving DecidableEq

/-- The `SYS_EXEC` runtime flag word: one Boolean per `EXEC_*` bit. -/
structure ExecFlags where
  alarm : Bool
  crit_event : Bool
  reset : Bool
  runtime_report : Bool
  feed_hold : Bool
  cycle_start : Bool
  cycle_stop : Bool
deriving DecidableEq

/-- `rt_exec` as a whole word: the `if (rt_exec)` nonzero test. -/
def ExecFlags.any (f : ExecFlags) : Bool :=
  f.alarm || f.crit_event || f.reset || f.runtime_report ||
    f.feed_hold || f.cycle_start || f.cycle_stop

/-- Bitwise OR of two flag words (an interrupt setting bits into `SYS_EXEC`). -/
def ExecFlags.or (a b : ExecFlags) : ExecFlags :=
  { alarm := a.alarm || b.alarm,
    crit_event := a.crit_event || b.crit_event,
    reset := a.reset || b.reset,
    runtime_report := a.runtime_report || b.runtime_report,
    feed_hold := a.feed_hold || b.feed_hold,
    cycle_start := a.cycle_start || b.cycle_start,
    cycle_stop := a.cycle_stop || b.cycle_stop }

/-- The `sysflags.report_rqsts` word: one Boolean per `REQUEST_*` bit. -/
structure ReportRqsts where
  status : Bool
  limit : Bool
  counter : Bool
  voltage : Bool
  edge : Bool
deriving DecidableEq

/-- The all-clear report-request word. -/
def ReportRqsts.clear : ReportRqsts :=
  { status := false, limit := false, counter := false, voltage := false, edge := false }

/-- Nonzero test on the report-request word. -/
def ReportRqsts.is_zero (r : ReportRqsts) : Bool :=
  !(r.status || r.limit || r.counter || r.voltage || r.edge)

/-- OR of two report-request words. -/
def ReportRqsts.or (a b : ReportRqsts) : ReportRqsts :=
  { status := a.status || b.status,
    limit := a.limit || b.limit,
    counter := a.counter || b.counter,
    voltage := a.voltage || b.voltage,
    edge := a.edge || b.edge }

/-- The dispatcher-visible system state: `sys.state`, `sys.old_state`,
`sys.abort`, `sys.alarm`, the `SYSFLAG_AUTOSTART` bit of `sys.flags`,
the limit/E-stop sampling memory, `SYS_EXEC` and
`sysflags.report_rqsts`. -/
structure SysState where
  state : MachineState
  old_state : MachineState
  abort : Bool
  alarm : Nat
  autostart : Bool
  limit_state : Nat
  old_limit_state : Nat
  last_estop_state : Nat
  sys_exec : ExecFlags
  report_rqsts : ReportRqsts
deriving DecidableEq

/-- External collaborators observed during one dispatcher pass. -/
structure Env where
  spi_motor_drivers : Bool
  estop_pin : Nat
  limit_pin : Nat
  linenumber_pending : Bool
  report_more_lines : Bool
  auto_start_setting : Bool
  plan_has_block : Bool
  lockout_events : List ExecFlags
deriving DecidableEq

/-- Calls the dispatcher makes into its collaborators, in order. -/
inductive ExtCall
  | systick_service
  | motor_drv_init
  | st_check_disable
  | request_eol_report
  | report_alarm_message (code : Nat)
  | report_feedback_critical
  | report_realtime_status
  | report_limit_pins
  | report_counters
  | report_voltage
  | report_edge_events
  | st_update_plan_block_parameters
  | st_prep_buffer
  | st_wake_up
deriving DecidableEq

/-- Result of a dispatcher pass: the system state and the call trace. -/
structure PassResult where
  sys : SysState
  calls : List ExtCall
deriving DecidableEq

/-- First stage of `protocol_check_required_reports`: flag a status
report when `sys.state` changed since the last pass. -/
def check_state_report (s : SysState) : SysState :=
  if s.state ≠ s.old_state then
    { s with old_state := s.state,
             sys_exec := { s.sys_exec with runtime_report := true },
             report_rqsts := { s.report_rqsts with status := true } }
  else s

/-- Flag a limit report when `sys.limit_state` differs from the last
reported value. -/
def check_limit_change (s : SysState) : SysState :=
  if s.limit_state ≠ s.old_limit_state then
    { s with old_limit_state := s.limit_state,
             sys_exec := { s.sys_exec with runtime_report := true },
             report_rqsts := { s.report_rqsts with limit := true } }
  else s

/-- Second stage: refresh `sys.limit_state` from the limit pins and
flag a limit report when it changed. -/
def check_limit_report (env : Env) (s0 : SysState) : SysState :=
  check_limit_change { s0 with limit_state := env.limit_pin }

/-- Third stage: flag a limit report when the E-stop pin state changed. -/
def check_estop_report (env : Env) (s : SysState) : SysState :=
  if env.estop_pin ≠ s.last_estop_state then
    { s with last_estop_state := env.estop_pin,
             sys_exec := { s.sys_exec with runtime_report := true },
             report_rqsts := { s.report_rqsts with limit := true } }
  else s

/-- `protocol_check_required_reports` (protocol.c): flags a status
report on a state change, refreshes `sys.limit_state` from the limit
pins and flags a limit report on a change, and flags a limit report on
an E-stop pin change. -/
def protocol_check_required_reports (env : Env) (s : SysState) : SysState :=
  check_estop_report env (check_limit_report env (check_state_report s))

/-- `maybe_reinit_motors` (protocol.c): reinitializes the motor
drivers when the E-stop pin state has just cleared. -/
def maybe_reinit_motors (env : Env) (s : SysState) : List ExtCall :=
  if env.estop_pin ≠ s.last_estop_state ∧ env.estop_pin = 0 then
    [ExtCall.motor_drv_init]
  else []

/-- The critical-event busy-wait
`do { } while (bit_isfalse(SYS_EXEC, EXEC_RESET))`.  `SYS_EXEC` is
only changed during the wait by interrupts, modelled as a list of flag
words OR-ed in one per iteration; if the list is exhausted with the
reset bit still clear the loop never exits (`none`). -/
def lockout_wait (sysExec : ExecFlags) : List ExecFlags → Option ExecFlags
  | [] => if sysExec.reset then some sysExec else none
  | e :: rest =>
    if sysExec.reset then some sysExec
    else lockout_wait (sysExec.or e) rest

/-- The `EXEC_ALARM | EXEC_CRIT_EVENT` branch of
`protocol_execute_runtime`: enters `STATE_ALARM`, reports the alarm
cause, and for a critical event additionally clears any pending
`EXEC_RESET` from `SYS_EXEC` and busy-waits until the reset bit is set
again; finally clears the alarm/critical-event bits and `sys.alarm`. -/
def exec_alarm_crit (rt : ExecFlags) (env : Env) (s : SysState) (calls : List ExtCall) :
    Option (SysState × List ExtCall) :=
  if rt.alarm || rt.crit_event then
    let s := { s with state := MachineState.ALARM }
    let calls := calls ++ [ExtCall.report_alarm_message s.alarm]
    if rt.crit_event then
      let calls := calls ++ [ExtCall.report_feedback_critical]
      let s := { s with sys_exec := { s.sys_exec with reset := false } }
      match lockout_wait s.sys_exec env.lockout_events with
      | none => none
      | some ex =>
        some ({ s with sys_exec := { ex with alarm := false, crit_event := false },
                       alarm := 0 }, calls)
    else
      some ({ s with sys_exec := { s.sys_exec with alarm := false, crit_event := false },
                     alarm := 0 }, calls)
  else some (s, calls)

/-- The `EXEC_RUNTIME_REPORT` branch: snapshot and clear
`sysflags.report_rqsts`, service at most one report category (status >
limit > counters > voltage > edge; the status category is only retired
when `report_realtime_status()` returns zero), merge the remainder
back, and clear `EXEC_RUNTIME_REPORT` only if nothing remains. -/
def exec_runtime_report (rt : ExecFlags) (env : Env) (s : SysState) (calls : List ExtCall) :
    SysState × List ExtCall :=
  if rt.runtime_report then
    let reports := s.report_rqsts
    let s := { s with report_rqsts := ReportRqsts.clear }
    let (reports, calls) :=
      if reports.status then
        (if env.report_more_lines then reports else { reports with status := false },
         calls ++ [ExtCall.report_realtime_status])
      else if reports.limit then
        ({ reports with limit := false }, calls ++ [ExtCall.report_limit_pins])
      else if reports.counter then
        ({ reports with counter := false }, calls ++ [ExtCall.report_counters])
      else if reports.voltage then
        ({ reports with voltage := false }, calls ++ [ExtCall.report_voltage])
      else if reports.edge then
        ({ reports with edge := false }, calls ++ [ExtCall.report_edge_events])
      else (reports, calls)
    let merged := ReportRqsts.or s.report_rqsts reports
    let s := { s with report_rqsts := merged }
    if merged.is_zero then
      ({ s with sys_exec := { s.sys_exec with runtime_report := false } }, calls)
    else (s, calls)
  else (s, calls)

/-- The `EXEC_FEED_HOLD` branch: only during `STATE_CYCLE` enter
`STATE_HOLD`, call `st_update_plan_block_parameters` then
`st_prep_buffer`, and clear the auto-start flag; in every case clear
`EXEC_FEED_HOLD` from `SYS_EXEC`. -/
def exec_feed_hold (rt : ExecFlags) (s : SysState) (calls : List ExtCall) :
    SysState × List ExtCall :=
  if rt.feed_hold then
    let p :=
      if s.state = MachineState.CYCLE then
        ({ s with state := MachineState.HOLD, autostart := false },
         calls ++ [ExtCall.st_update_plan_block_parameters, ExtCall.st_prep_buffer])
      else (s, calls)
    ({ p.1 with sys_exec := { p.1.sys_exec with feed_hold := false } }, p.2)
  else (s, calls)

/-- The `EXEC_CYCLE_START` branch: blocked while homing /
force-servoing / probing; from `STATE_QUEUED` enter `STATE_CYCLE`,
call `st_prep_buffer` and `st_wake_up`, and set or clear the
auto-start flag per the `BITFLAG_AUTO_START` setting.  The source
never clears `EXEC_CYCLE_START` from `SYS_EXEC` here. -/
def exec_cycle_start (rt : ExecFlags) (env : Env) (s : SysState) (calls : List ExtCall) :
    SysState × List ExtCall :=
  if rt.cycle_start ∧
      ¬(s.state = MachineState.HOMING ∨ s.state = MachineState.FORCESERVO ∨
        s.state = MachineState.PROBING) then
    if s.state = MachineState.QUEUED then
      ({ s with state := MachineState.CYCLE, autostart := env.auto_start_setting },
       calls ++ [ExtCall.st_prep_buffer, ExtCall.st_wake_up])
    else (s, calls)
  else (s, calls)

/-- The `EXEC_CYCLE_STOP` branch: enter `STATE_QUEUED` if a plan block
remains, else `STATE_IDLE`, and clear `EXEC_CYCLE_STOP`. -/
def exec_cycle_stop (rt : ExecFlags) (env : Env) (s : SysState) : SysState :=
  if rt.cycle_stop then
    let s :=
      if env.plan_has_block then { s with state := MachineState.QUEUED }
      else { s with state := MachineState.IDLE }
    { s with sys_exec := { s.sys_exec with cycle_stop := false } }
  else s

/-- `sys.state & (STATE_CYCLE | STATE_HOLD | STATE_HOMING |
STATE_FORCESERVO | STATE_PROBING)`: the states in which the tail of the
pass reloads the step segment buffer. -/
def st_prep_states (st : MachineState) : Bool :=
  st = MachineState.CYCLE || st = MachineState.HOLD || st = MachineState.HOMING ||
    st = MachineState.FORCESERVO || st = MachineState.PROBING

/-- The call trace of the front of a dispatcher pass, before the flag
word is processed: systick servicing, the optional motor-driver
reinitialization, the idle-disable check and the idle line-number
flush (the flush checks `sys.state` after
`protocol_check_required_reports` ran, which preserves it). -/
def pass_front_calls (env : Env) (s : SysState) : List ExtCall :=
  [ExtCall.systick_service] ++
    (if env.spi_motor_drivers then maybe_reinit_motors env s else []) ++
    [ExtCall.st_check_disable] ++
    (if (protocol_check_required_reports env s).state = MachineState.IDLE ∧
        env.linenumber_pending then
      [ExtCall.request_eol_report] else [])

/-- The report, feed-hold, cycle-start and cycle-stop branches of the
flag block, in source order (reached only when `EXEC_RESET` is not in
the snapshot). -/
def pass_flag_block (rt : ExecFlags) (env : Env) (s : SysState) (calls : List ExtCall) :
    SysState × List ExtCall :=
  let p2 := exec_runtime_report rt env s calls
  let p3 := exec_feed_hold rt p2.1 p2.2
  let p4 := exec_cycle_start rt env p3.1 p3.2
  (exec_cycle_stop rt env p4.1, p4.2)

/-- Shallow embedding of `protocol_execute_runtime` (protocol.c).
Snapshots `SYS_EXEC` into `rt_exec` once, services the systick
callbacks, optionally reinitializes the motor drivers, detects
report-worthy transitions, runs the idle-disable check and the
idle line-number flush, then processes the snapshot through the
alarm/critical, reset, report, feed-hold, cycle-start and cycle-stop
branches in source order; on `EXEC_RESET` it returns immediately
(skipping the remaining branches and the tail refill).  The
critical-event busy-wait diverges (`none`) if no interrupt delivers a
reset.  The final `IO_RESET_PORT` pin write touches no modelled state. -/
def protocol_execute_runtime (env : Env) (s0 : SysState) : Option PassResult :=
  let rt_exec := s0.sys_exec
  let s := protocol_check_required_reports env s0
  let calls := pass_front_calls env s0
  let flagged : Option (SysState × List ExtCall × Bool) :=
    if rt_exec.any then
      match exec_alarm_crit rt_exec env s calls with
      | none => none
      | some p =>
        if rt_exec.reset then
          some ({ p.1 with abort := true }, p.2, true)
        else
          let q := pass_flag_block rt_exec env p.1 p.2
          some (q.1, q.2, false)
    else some (s, calls, false)
  match flagged with
  | none => none
  | some (s, calls, early) =>
    if early then some { sys := s, calls := calls }
    else
      some { sys := s,
             calls := calls ++ (if st_prep_states s.state then [ExtCall.st_prep_buffer] else []) }

/-- The wait loop of `protocol_buffer_synchronize`:
`while (plan_get_current_block() || sys.state == STATE_CYCLE)` run one
dispatcher pass and return on `sys.abort`.  Each iteration observes one
environment from the list (also serving as fuel: an exhausted list, or
a diverging pass, is `none`).  The environment observed at exit is
returned with the final state. -/
def sync_loop : List Env → SysState → Option (Env × SysState)
  | [], _ => none
  | e :: rest, s =>
    if e.plan_has_block = true ∨ s.state = MachineState.CYCLE then
      match protocol_execute_runtime e s with
      | none => none
      | some r => if r.sys.abort = true then some (e, r.sys) else sync_loop rest r.sys
    else some (e, s)

/-- `protocol_buffer_synchronize` (protocol.c): re-arm auto-start when
entered during a cycle, then run the wait loop. -/
def protocol_buffer_synchronize (envs : List Env) (s : SysState) : Option (Env × SysState) :=
  let s := if s.state = MachineState.CYCLE then { s with autostart := true } else s
  sync_loop envs s

/-- `t` agrees with `s` on everything the flag block reads or the
claims observe: `sys.state`, `sys.abort`, `sys.alarm`, the auto-start
flag and every `SYS_EXEC` bit except `EXEC_RUNTIME_REPORT`. -/
def same_core (s t : SysState) : Prop :=
  t.state = s.state ∧ t.abort = s.abort ∧ t.alarm = s.alarm ∧
    t.autostart = s.autostart ∧
    t.sys_exec.alarm = s.sys_exec.alarm ∧
    t.sys_exec.crit_event = s.sys_exec.crit_event ∧
    t.sys_exec.reset = s.sys_exec.reset ∧
    t.sys_exec.feed_hold = s.sys_exec.feed_hold ∧
    t.sys_exec.cycle_start = s.sys_exec.cycle_start ∧
    t.sys_exec.cycle_stop = s.sys_exec.cycle_stop

/-- The all-clear `SYS_EXEC` word. -/
def exec_clear : ExecFlags :=
  { alarm := false, crit_event := false, reset := false, runtime_report := false,
    feed_hold := false, cycle_start := false, cycle_stop := false }

/-- A quiet environment: no pin changes, no pending reports, planner
empty, no interrupt activity during a lockout. -/
def benign_env : Env :=
  { spi_motor_drivers := false, estop_pin := 0, limit_pin := 0,
    linenumber_pending := false, report_more_lines := false,
    auto_start_setting := false, plan_has_block := false, lockout_events := [] }

/-- A system state with the given machine state and flag word, all
sampling memory consistent with `benign_env`. -/
def mk_state (st ost : MachineState) (ex : ExecFlags) : SysState :=
  { state := st, old_state := ost, abort := false, alarm := 0, autostart := false,
    limit_state := 0, old_limit_state := 0, last_estop_state := 0,
    sys_exec := ex, report_rqsts := ReportRqsts.clear }

/-- The result of a concrete pass whose snapshot has only `EXEC_RESET`. -/
def c8_result : PassResult :=
  { sys := { state := MachineState.IDLE, old_state := MachineState.IDLE, abort := true,
             alarm := 0, autostart := false, limit_state := 0, old_limit_state := 0,
             last_estop_state := 0, sys_exec := { exec_clear with reset := true },
             report_rqsts := ReportRqsts.clear },
    calls := [ExtCall.systick_service, ExtCall.st_check_disable] }

/-- C2: `systick_service_callbacks` fires the entry at index 0 whenever
`callback_time >= SysTick`, i.e. exactly when the fire time has NOT yet
passed.  At `SysTick = 5`, an entry scheduled for tick 100 is invoked
even though `5 < 100`: the action runs before its fire tick arrives. -/
theorem service_fires_before_fire_tick :
    5 < 100 ∧
      (systick_service_callbacks
        { mem := encode_array (List.replicate MAX_CALLBACKS zero_cb |>.set 0
            { callback_time := 100, cb_function := 7 }),
          systick_len := 1, sysTick := 5, fired := [] }).fired = [7] := by
  constructor
  · decide
  · rfl

/-- C3: after registering fire times 5 and then 10, `qsort` with the
source's `cmp` leaves the array in DESCENDING order: index 0 holds fire
time 10 and index 1 holds fire time 5, so the smallest fire time is not
at index 0. -/
theorem register_sorts_descending :
    c3_regs.map (fun p => (p.1.take 2).map callback_t.callback_time) = some [10, 5] := by
  rfl

/-- C4: servicing with `SysTick = 10` and entries
`(10, 0x1234) :: (20, 0xBEEF) :: zeros` fires `0x1234` and decrements
the length, but the `memmove` shifts only `systick_len - 1 = 1` byte
instead of `sizeof(callback_t)` bytes, so the surviving entry at index 0
is the corrupt hybrid `(20, 0x1234)` — fire time of the second entry,
action of the removed one — instead of `(20, 0xBEEF)`. -/
theorem service_corrupts_survivor :
    (systick_service_callbacks
        { mem := encode_array ([{ callback_time := 10, cb_function := 0x1234 },
            { callback_time := 20, cb_function := 0xBEEF }] ++
            List.replicate 30 zero_cb),
          systick_len := 2, sysTick := 10, fired := [] }).fired = [0x1234] ∧
      (systick_service_callbacks
        { mem := encode_array ([{ callback_time := 10, cb_function := 0x1234 },
            { callback_time := 20, cb_function := 0xBEEF }] ++
            List.replicate 30 zero_cb),
          systick_len := 2, sysTick := 10, fired := [] }).systick_len = 1 ∧
      read_callback (systick_service_callbacks
        { mem := encode_array ([{ callback_time := 10, cb_function := 0x1234 },
            { callback_time := 20, cb_function := 0xBEEF }] ++
            List.replicate 30 zero_cb),
          systick_len := 2, sysTick := 10, fired := [] }).mem 0 =
        { callback_time := 20, cb_function := 0x1234 } := by
  refine ⟨rfl, rfl, ?_⟩
  rfl

/-- C5: `systick_register_callback` performs no capacity check: called
with `systick_len = MAX_CALLBACKS` on the full fixed-size array it
stores to `systick_callbacks_array[MAX_CALLBACKS]`, one past the end —
an out-of-bounds write (modelled as `none`), not a surfaced capacity
error. -/
theorem register_full_writes_out_of_bounds (arr : List callback_t)
    (h : arr.length = MAX_CALLBACKS) (t d f : Nat) :
    systick_register_callback t arr MAX_CALLBACKS d f = none := by
  unfold systick_register_callback
  simp [h]

/-- Witness for `register_full_writes_out_of_bounds` at a concrete full array. -/
theorem register_full_writes_out_of_bounds_witness :
    systick_register_callback 3 (List.replicate MAX_CALLBACKS zero_cb) MAX_CALLBACKS 5 1 = none :=
  register_full_writes_out_of_bounds (List.replicate MAX_CALLBACKS zero_cb)
    (List.length_replicate MAX_CALLBACKS zero_cb) 3 5 1

theorem same_core_trans {s t u : SysState} (h1 : same_core s t) (h2 : same_core t u) :
    same_core s u := by
  obtain ⟨a1, a2, a3, a4, a5, a6, a7, a8, a9, a10⟩ := h1
  obtain ⟨b1, b2, b3, b4, b5, b6, b7, b8, b9, b10⟩ := h2
  exact ⟨b1.trans a1, b2.trans a2, b3.trans a3, b4.trans a4, b5.trans a5,
    b6.trans a6, b7.trans a7, b8.trans a8, b9.trans a9, b10.trans a10⟩

theorem check_state_report_core (s : SysState) : same_core s (check_state_report s) := by
  unfold check_state_report same_core
  split <;> simp

theorem check_limit_change_core (s : SysState) : same_core s (check_limit_change s) := by
  unfold check_limit_change same_core
  split <;> simp

theorem check_limit_report_core (env : Env) (s : SysState) :
    same_core s (check_limit_report env s) := by
  unfold check_limit_report
  exact same_core_trans (by unfold same_core; simp) (check_limit_change_core _)

theorem check_estop_report_core (env : Env) (s : SysState) :
    same_core s (check_estop_report env s) := by
  unfold check_estop_report same_core
  split <;> simp

/-- `protocol_check_required_reports` only touches the sampling memory
and the report-request bits. -/
theorem check_reports_preserves (env : Env) (s : SysState) :
    same_core s (protocol_check_required_reports env s) := by
  unfold protocol_check_required_reports
  exact same_core_trans
    (same_core_trans (check_state_report_core s) (check_limit_report_core env _))
    (check_estop_report_core env _)

/-- The front of a pass makes no stepper-engine and no report-category
calls. -/
theorem pass_front_calls_counts (env : Env) (s : SysState) :
    (pass_front_calls env s).count ExtCall.st_update_plan_block_parameters = 0 ∧
    (pass_front_calls env s).count ExtCall.st_prep_buffer = 0 ∧
    (pass_front_calls env s).count ExtCall.st_wake_up = 0 ∧
    (pass_front_calls env s).count ExtCall.report_realtime_status = 0 ∧
    (pass_front_calls env s).count ExtCall.report_limit_pins = 0 ∧
    (pass_front_calls env s).count ExtCall.report_counters = 0 ∧
    (pass_front_calls env s).count ExtCall.report_voltage = 0 ∧
    (pass_front_calls env s).count ExtCall.report_edge_events = 0 := by
  refine ⟨?_, ?_, ?_, ?_, ?_, ?_, ?_, ?_⟩ <;>
    (simp only [pass_front_calls, maybe_reinit_motors, List.count_append]
     repeat' split <;> simp)

/-- The busy-wait only ORs interrupt-set bits into `SYS_EXEC`: a bit
that was set when the wait began is still set when it exits. -/
theorem lockout_wait_mono (evs : List ExecFlags) :
    ∀ ex ex', lockout_wait ex evs = some ex' →
      (ex.feed_hold = true → ex'.feed_hold = true) ∧
      (ex.cycle_start = true → ex'.cycle_start = true) ∧
      (ex.cycle_stop = true → ex'.cycle_stop = true) := by
  induction evs with
  | nil =>
    intro ex ex' h
    unfold lockout_wait at h
    split at h
    · cases h
      exact ⟨fun hh => hh, fun hh => hh, fun hh => hh⟩
    · cases h
  | cons e rest ih =>
    intro ex ex' h
    unfold lockout_wait at h
    split at h
    · cases h
      exact ⟨fun hh => hh, fun hh => hh, fun hh => hh⟩
    · have := ih (ex.or e) ex' h
      unfold ExecFlags.or at this
      refine ⟨fun hh => this.1 ?_, fun hh => this.2.1 ?_, fun hh => this.2.2 ?_⟩ <;>
        simp [hh]

/-- If alarm and critical-event bits are both clear in the snapshot,
the alarm branch is a no-op. -/
theorem exec_alarm_crit_quiet (rt : ExecFlags) (env : Env) (s : SysState)
    (calls : List ExtCall) (ha : rt.alarm = false) (hc : rt.crit_event = false) :
    exec_alarm_crit rt env s calls = some (s, calls) := by
  unfold exec_alarm_crit
  simp [ha, hc]

/-- What the alarm/critical branch guarantees whenever it returns:
the state moves to `STATE_ALARM` exactly when one of the two bits was
in the snapshot; `sys.abort`, the auto-start flag and `sys.state`
otherwise survive; set `feed_hold`/`cycle_start`/`cycle_stop` bits of
`SYS_EXEC` are never cleared; when the branch fired, the
alarm/critical bits of `SYS_EXEC` end cleared; and the only calls
appended are alarm reports. -/
theorem exec_alarm_crit_spec (rt : ExecFlags) (env : Env) (s : SysState)
    (calls : List ExtCall) (p : SysState × List ExtCall)
    (h : exec_alarm_crit rt env s calls = some p) :
    p.1.state = (if rt.alarm || rt.crit_event then MachineState.ALARM else s.state) ∧
    p.1.abort = s.abort ∧
    p.1.autostart = s.autostart ∧
    (s.sys_exec.feed_hold = true → p.1.sys_exec.feed_hold = true) ∧
    (s.sys_exec.cycle_start = true → p.1.sys_exec.cycle_start = true) ∧
    (s.sys_exec.cycle_stop = true → p.1.sys_exec.cycle_stop = true) ∧
    ((rt.alarm = true ∨ rt.crit_event = true) →
      p.1.sys_exec.alarm = false ∧ p.1.sys_exec.crit_event = false) ∧
    (∀ x : ExtCall, (∀ c : Nat, x ≠ ExtCall.report_alarm_message c) →
      x ≠ ExtCall.report_feedback_critical → p.2.count x = calls.count x) := by
  unfold exec_alarm_crit at h
  split at h
  · rename_i hac
    dsimp only at h
    split at h
    · rename_i hcrit
      split at h
      · cases h
      · rename_i ex hl
        cases h
        have hm := lockout_wait_mono env.lockout_events _ _ hl
        refine ⟨by simp [hac], rfl, rfl, fun hh => hm.1 hh, fun hh => hm.2.1 hh,
          fun hh => hm.2.2 hh, fun _ => ⟨rfl, rfl⟩, ?_⟩
        intro x hx1 hx2
        simp [List.count_append, List.count_cons, hx1 s.alarm, hx2]
    · cases h
      refine ⟨by simp [hac], rfl, rfl, fun hh => hh, fun hh => hh, fun hh => hh,
        fun _ => ⟨rfl, rfl⟩, ?_⟩
      intro x hx1 _
      simp [List.count_append, List.count_cons, hx1 s.alarm]
  · cases h
    rename_i hac
    refine ⟨?_, rfl, rfl, fun hh => hh, fun hh => hh, fun hh => hh, ?_, fun x _ _ => rfl⟩
    · simp only [Bool.or_eq_true] at hac
      push_neg at hac
      simp [Bool.not_eq_true] at hac
      simp [hac.1, hac.2]
    · intro hor
      rcases hor with h1 | h1 <;> simp [h1] at hac

/-- The report branch never changes the core state and only appends
report calls. -/
theorem exec_runtime_report_spec (rt : ExecFlags) (env : Env) (s : SysState)
    (calls : List ExtCall) :
    same_core s (exec_runtime_report rt env s calls).1 ∧
    calls.Sublist (exec_runtime_report rt env s calls).2 ∧
    (∀ x : ExtCall,
      x = ExtCall.st_update_plan_block_parameters ∨ x = ExtCall.st_prep_buffer ∨
        x = ExtCall.st_wake_up →
      (exec_runtime_report rt env s calls).2.count x = calls.count x) := by
  unfold exec_runtime_report
  dsimp only
  repeat' split
  all_goals
    exact ⟨by simp [same_core],
      by first
        | exact List.Sublist.refl _
        | exact List.sublist_append_left _ _,
      by rintro x (rfl | rfl | rfl) <;> simp [List.count_append, List.count_cons]⟩

/-- Feed hold taken during a cycle: enter `STATE_HOLD`, clear
auto-start, clear the flag bit, and call the two engine functions. -/
theorem exec_feed_hold_cycle (rt : ExecFlags) (s : SysState) (calls : List ExtCall)
    (hfh : rt.feed_hold = true) (hst : s.state = MachineState.CYCLE) :
    exec_feed_hold rt s calls =
      ({ s with state := MachineState.HOLD, autostart := false,
                sys_exec := { s.sys_exec with feed_hold := false } },
       calls ++ [ExtCall.st_update_plan_block_parameters, ExtCall.st_prep_buffer]) := by
  unfold exec_feed_hold
  simp [hfh, hst]

/-- Feed hold observed outside a cycle: only the flag bit is cleared. -/
theorem exec_feed_hold_not_cycle (rt : ExecFlags) (s : SysState) (calls : List ExtCall)
    (hfh : rt.feed_hold = true) (hst : s.state ≠ MachineState.CYCLE) :
    exec_feed_hold rt s calls =
      ({ s with sys_exec := { s.sys_exec with feed_hold := false } }, calls) := by
  unfold exec_feed_hold
  simp [hfh, hst]

/-- No feed-hold bit in the snapshot: the branch is a no-op. -/
theorem exec_feed_hold_quiet (rt : ExecFlags) (s : SysState) (calls : List ExtCall)
    (hfh : rt.feed_hold = false) :
    exec_feed_hold rt s calls = (s, calls) := by
  unfold exec_feed_hold
  simp [hfh]

/-- The feed-hold branch never touches abort or the alarm/critical
bits of `SYS_EXEC`. -/
theorem exec_feed_hold_sys (rt : ExecFlags) (s : SysState) (calls : List ExtCall) :
    (exec_feed_hold rt s calls).1.abort = s.abort ∧
    (exec_feed_hold rt s calls).1.sys_exec.alarm = s.sys_exec.alarm ∧
    (exec_feed_hold rt s calls).1.sys_exec.crit_event = s.sys_exec.crit_event := by
  unfold exec_feed_hold
  repeat' split
  all_goals simp

/-- The cycle-start branch does nothing outside `STATE_QUEUED`. -/
theorem exec_cycle_start_ne_queued (rt : ExecFlags) (env : Env) (s : SysState)
    (calls : List ExtCall) (h : s.state ≠ MachineState.QUEUED) :
    exec_cycle_start rt env s calls = (s, calls) := by
  unfold exec_cycle_start
  repeat' split
  all_goals simp_all

/-- The cycle-start branch never touches `SYS_EXEC` or abort
(in particular it does not clear `EXEC_CYCLE_START`). -/
theorem exec_cycle_start_sys (rt : ExecFlags) (env : Env) (s : SysState)
    (calls : List ExtCall) :
    (exec_cycle_start rt env s calls).1.sys_exec = s.sys_exec ∧
    (exec_cycle_start rt env s calls).1.abort = s.abort := by
  unfold exec_cycle_start
  repeat' split
  all_goals simp

/-- No cycle-stop bit in the snapshot: the branch is a no-op. -/
theorem exec_cycle_stop_quiet (rt : ExecFlags) (env : Env) (s : SysState)
    (h : rt.cycle_stop = false) :
    exec_cycle_stop rt env s = s := by
  unfold exec_cycle_stop
  simp [h]

/-- The cycle-stop branch never touches abort, auto-start, or the
alarm/critical bits of `SYS_EXEC`. -/
theorem exec_cycle_stop_sys (rt : ExecFlags) (env : Env) (s : SysState) :
    (exec_cycle_stop rt env s).abort = s.abort ∧
    (exec_cycle_stop rt env s).autostart = s.autostart ∧
    (exec_cycle_stop rt env s).sys_exec.alarm = s.sys_exec.alarm ∧
    (exec_cycle_stop rt env s).sys_exec.crit_event = s.sys_exec.crit_event := by
  unfold exec_cycle_stop
  repeat' split
  all_goals simp

/-- A pass whose snapshot has no alarm, critical-event or reset bit
runs the front, then the report/feed-hold/cycle-start/cycle-stop
block, then the tail refill. -/
theorem pass_eq_of_quiet (env : Env) (s : SysState)
    (ha : s.sys_exec.alarm = false) (hc : s.sys_exec.crit_event = false)
    (hr : s.sys_exec.reset = false) (hany : s.sys_exec.any = true) :
    protocol_execute_runtime env s =
      some { sys := (pass_flag_block s.sys_exec env (protocol_check_required_reports env s)
                (pass_front_calls env s)).1,
             calls := (pass_flag_block s.sys_exec env (protocol_check_required_reports env s)
                (pass_front_calls env s)).2 ++
              (if st_prep_states (pass_flag_block s.sys_exec env
                  (protocol_check_required_reports env s) (pass_front_calls env s)).1.state then
                [ExtCall.st_prep_buffer] else []) } := by
  unfold protocol_execute_runtime
  dsimp only
  rw [hany, exec_alarm_crit_quiet _ _ _ _ ha hc]
  simp [hr]

/-- A pass whose snapshot has the reset bit set runs the front and the
alarm/critical branch, then sets abort and returns, skipping the other
branches and the tail refill. -/
theorem pass_eq_of_reset (env : Env) (s : SysState) (hr : s.sys_exec.reset = true) :
    protocol_execute_runtime env s =
      (exec_alarm_crit s.sys_exec env (protocol_check_required_reports env s)
          (pass_front_calls env s)).map
        (fun p => { sys := { p.1 with abort := true }, calls := p.2 }) := by
  have hany : s.sys_exec.any = true := by
    unfold ExecFlags.any
    simp [hr]
  unfold protocol_execute_runtime
  dsimp only
  rw [hany]
  cases hac : exec_alarm_crit s.sys_exec env (protocol_check_required_reports env s)
      (pass_front_calls env s) with
  | none => simp
  | some p => simp [hr]

/-- C6: in a pass whose snapshot carries the feed-hold bit while the
machine is in `STATE_CYCLE` (and no alarm/critical/reset/cycle-stop
bit supersedes it), the dispatcher enters `STATE_HOLD`, calls
`st_update_plan_block_parameters` and then `st_prep_buffer`, clears
the auto-start flag, and clears `EXEC_FEED_HOLD` from `SYS_EXEC`. -/
theorem feed_hold_during_cycle (env : Env) (s : SysState)
    (hfh : s.sys_exec.feed_hold = true)
    (ha : s.sys_exec.alarm = false) (hc : s.sys_exec.crit_event = false)
    (hr : s.sys_exec.reset = false) (hcs : s.sys_exec.cycle_stop = false)
    (hst : s.state = MachineState.CYCLE) :
    ∃ r, protocol_execute_runtime env s = some r ∧
      r.sys.state = MachineState.HOLD ∧
      r.sys.autostart = false ∧
      r.sys.sys_exec.feed_hold = false ∧
      [ExtCall.st_update_plan_block_parameters, ExtCall.st_prep_buffer].Sublist r.calls := by
  have hany : s.sys_exec.any = true := by
    unfold ExecFlags.any
    simp [hfh]
  rw [pass_eq_of_quiet env s ha hc hr hany]
  refine ⟨_, rfl, ?_⟩
  obtain ⟨q1, q2, q3, q4, q5, q6, q7, q8, q9, q10⟩ := check_reports_preserves env s
  obtain ⟨rm_core, rm_sub, rm_cnt⟩ :=
    exec_runtime_report_spec s.sys_exec env (protocol_check_required_reports env s)
      (pass_front_calls env s)
  obtain ⟨m1, m2, m3, m4, m5, m6, m7, m8, m9, m10⟩ := rm_core
  unfold pass_flag_block
  dsimp only
  have hp2state :
      (exec_runtime_report s.sys_exec env (protocol_check_required_reports env s)
        (pass_front_calls env s)).1.state = MachineState.CYCLE := by
    rw [m1, q1, hst]
  rw [exec_feed_hold_cycle s.sys_exec _ _ hfh hp2state]
  dsimp only
  rw [exec_cycle_start_ne_queued _ _ _ _ (by simp)]
  dsimp only
  rw [exec_cycle_stop_quiet _ _ _ hcs]
  refine ⟨by simp, by simp, by simp, ?_⟩
  dsimp only
  refine List.Sublist.trans ?_ (List.sublist_append_left _ _)
  exact List.sublist_append_right _ _

/-- No cycle-start bit in the snapshot: the branch is a no-op. -/
theorem exec_cycle_start_quiet (rt : ExecFlags) (env : Env) (s : SysState)
    (calls : List ExtCall) (h : rt.cycle_start = false) :
    exec_cycle_start rt env s calls = (s, calls) := by
  unfold exec_cycle_start
  simp [h]

/-- C10: in a pass whose snapshot carries the feed-hold bit while the
machine is NOT in `STATE_CYCLE` (no other handled bit set), the bit is
cleared and discarded with no other effect: state and auto-start are
unchanged, `st_update_plan_block_parameters` and `st_wake_up` are
never called, and the only `st_prep_buffer` call is the unconditional
tail refill made in the active motion states. -/
theorem feed_hold_outside_cycle (env : Env) (s : SysState)
    (hfh : s.sys_exec.feed_hold = true)
    (ha : s.sys_exec.alarm = false) (hc : s.sys_exec.crit_event = false)
    (hr : s.sys_exec.reset = false) (hcs : s.sys_exec.cycle_stop = false)
    (hcst : s.sys_exec.cycle_start = false)
    (hst : s.state ≠ MachineState.CYCLE) :
    ∃ r, protocol_execute_runtime env s = some r ∧
      r.sys.state = s.state ∧
      r.sys.autostart = s.autostart ∧
      r.sys.sys_exec.feed_hold = false ∧
      r.calls.count ExtCall.st_update_plan_block_parameters = 0 ∧
      r.calls.count ExtCall.st_wake_up = 0 ∧
      r.calls.count ExtCall.st_prep_buffer = (if st_prep_states s.state then 1 else 0) := by
  have hany : s.sys_exec.any = true := by
    unfold ExecFlags.any
    simp [hfh]
  rw [pass_eq_of_quiet env s ha hc hr hany]
  refine ⟨_, rfl, ?_⟩
  obtain ⟨q1, q2, q3, q4, q5, q6, q7, q8, q9, q10⟩ := check_reports_preserves env s
  obtain ⟨rm_core, rm_sub, rm_cnt⟩ :=
    exec_runtime_report_spec s.sys_exec env (protocol_check_required_reports env s)
      (pass_front_calls env s)
  obtain ⟨m1, m2, m3, m4, m5, m6, m7, m8, m9, m10⟩ := rm_core
  obtain ⟨f1, f2, f3, f4, f5, f6, f7, f8⟩ := pass_front_calls_counts env s
  unfold pass_flag_block
  dsimp only
  have hp2state :
      (exec_runtime_report s.sys_exec env (protocol_check_required_reports env s)
        (pass_front_calls env s)).1.state ≠ MachineState.CYCLE := by
    rw [m1, q1]
    exact hst
  rw [exec_feed_hold_not_cycle s.sys_exec _ _ hfh hp2state]
  dsimp only
  rw [exec_cycle_start_quiet _ _ _ _ hcst]
  dsimp only
  rw [exec_cycle_stop_quiet _ _ _ hcs]
  refine ⟨by simp [m1, q1], by simp [m4, q4], by simp, ?_, ?_, ?_⟩
  · simp only [List.count_append, m1, q1,
      rm_cnt ExtCall.st_update_plan_block_parameters (Or.inl rfl), f1]
    split <;> simp
  · simp only [List.count_append, m1, q1,
      rm_cnt ExtCall.st_wake_up (Or.inr (Or.inr rfl)), f3]
    split <;> simp
  · simp only [List.count_append, m1, q1,
      rm_cnt ExtCall.st_prep_buffer (Or.inr (Or.inl rfl)), f2]
    split <;> simp

/-- C1 (counter-evaluation): a snapshot with only `EXEC_CYCLE_START`
set, taken in `STATE_QUEUED`, has its effect fully applied — the state
becomes `STATE_CYCLE` and `st_wake_up` is called — yet
`EXEC_CYCLE_START` is still set in `SYS_EXEC` when the pass ends: the
handled bit is never cleared. -/
theorem cycle_start_bit_never_cleared :
    (protocol_execute_runtime { benign_env with plan_has_block := true }
        (mk_state MachineState.QUEUED MachineState.QUEUED
          { exec_clear with cycle_start := true })).map
      (fun r => (r.sys.state, r.sys.sys_exec.cycle_start,
        r.calls.count ExtCall.st_wake_up)) =
    some (MachineState.CYCLE, true, 1) := by
  decide

/-- C8 (counterexample): a snapshot carrying both `EXEC_RESET` and
`EXEC_ALARM` does not short-circuit to the abort: the alarm flag is
fully handled first — the state moves to `STATE_ALARM`, the alarm
cause is reported and the alarm bit is cleared — before abort is set. -/
theorem reset_does_not_preempt_alarm :
    (protocol_execute_runtime benign_env
        (mk_state MachineState.IDLE MachineState.IDLE
          { exec_clear with alarm := true, reset := true })).map
      (fun r => (r.sys.state, r.sys.abort, r.sys.sys_exec.alarm,
        r.calls.count (ExtCall.report_alarm_message 0))) =
    some (MachineState.ALARM, true, false, 1) := by
  decide

/-- C8 (amended): when the snapshot carries `EXEC_RESET`, the pass —
after the alarm/critical branch, which runs first — sets the terminal
abort and returns: the report, feed-hold, cycle-start and cycle-stop
branches of that snapshot are not handled (their bits are not cleared
by the dispatcher and none of their calls are made), and the tail
refill is skipped. -/
theorem reset_short_circuits (env : Env) (s : SysState) (r : PassResult)
    (hr : s.sys_exec.reset = true)
    (hres : protocol_execute_runtime env s = some r) :
    r.sys.abort = true ∧
    r.sys.state =
      (if s.sys_exec.alarm || s.sys_exec.crit_event then MachineState.ALARM else s.state) ∧
    r.sys.autostart = s.autostart ∧
    (s.sys_exec.feed_hold = true → r.sys.sys_exec.feed_hold = true) ∧
    (s.sys_exec.cycle_start = true → r.sys.sys_exec.cycle_start = true) ∧
    (s.sys_exec.cycle_stop = true → r.sys.sys_exec.cycle_stop = true) ∧
    r.calls.count ExtCall.st_update_plan_block_parameters = 0 ∧
    r.calls.count ExtCall.st_prep_buffer = 0 ∧
    r.calls.count ExtCall.st_wake_up = 0 ∧
    r.calls.count ExtCall.report_realtime_status = 0 ∧
    r.calls.count ExtCall.report_limit_pins = 0 ∧
    r.calls.count ExtCall.report_counters = 0 ∧
    r.calls.count ExtCall.report_voltage = 0 ∧
    r.calls.count ExtCall.report_edge_events = 0 := by
  rw [pass_eq_of_reset env s hr] at hres
  cases hac : exec_alarm_crit s.sys_exec env (protocol_check_required_reports env s)
      (pass_front_calls env s) with
  | none =>
    rw [hac] at hres
    cases hres
  | some p =>
    rw [hac] at hres
    dsimp only [Option.map] at hres
    cases hres
    obtain ⟨a1, a2, a3, a4, a5, a6, a7, a8⟩ := exec_alarm_crit_spec _ _ _ _ _ hac
    obtain ⟨q1, q2, q3, q4, q5, q6, q7, q8, q9, q10⟩ := check_reports_preserves env s
    obtain ⟨f1, f2, f3, f4, f5, f6, f7, f8⟩ := pass_front_calls_counts env s
    have hram : ∀ x : ExtCall, (∀ c : Nat, x ≠ ExtCall.report_alarm_message c) →
        x ≠ ExtCall.report_feedback_critical → p.2.count x =
          (pass_front_calls env s).count x := a8
    refine ⟨rfl, by simp [a1, q1], by simp [a3, q4],
      fun hh => a4 (q8.trans hh), fun hh => a5 (q9.trans hh), fun hh => a6 (q10.trans hh),
      ?_, ?_, ?_, ?_, ?_, ?_, ?_, ?_⟩
    · rw [hram _ (fun c h => ExtCall.noConfusion h) (fun h => ExtCall.noConfusion h)]
      exact f1
    · rw [hram _ (fun c h => ExtCall.noConfusion h) (fun h => ExtCall.noConfusion h)]
      exact f2
    · rw [hram _ (fun c h => ExtCall.noConfusion h) (fun h => ExtCall.noConfusion h)]
      exact f3
    · rw [hram _ (fun c h => ExtCall.noConfusion h) (fun h => ExtCall.noConfusion h)]
      exact f4
    · rw [hram _ (fun c h => ExtCall.noConfusion h) (fun h => ExtCall.noConfusion h)]
      exact f5
    · rw [hram _ (fun c h => ExtCall.noConfusion h) (fun h => ExtCall.noConfusion h)]
      exact f6
    · rw [hram _ (fun c h => ExtCall.noConfusion h) (fun h => ExtCall.noConfusion h)]
      exact f7
    · rw [hram _ (fun c h => ExtCall.noConfusion h) (fun h => ExtCall.noConfusion h)]
      exact f8

/-- With a critical event in the snapshot and no interrupt activity,
the busy-wait never exits: the reset bit was cleared on entry. -/
theorem exec_alarm_crit_none_of_no_event (rt : ExecFlags) (env : Env) (s : SysState)
    (calls : List ExtCall) (hcrit : rt.crit_event = true)
    (hev : env.lockout_events = []) :
    exec_alarm_crit rt env s calls = none := by
  unfold exec_alarm_crit lockout_wait
  simp [hcrit, hev]

/-- With a critical event in the snapshot and an interrupt that sets
the reset bit during the wait, the branch returns with the alarm and
critical-event bits cleared. -/
theorem exec_alarm_crit_some_of_reset_event (rt : ExecFlags) (env : Env) (s : SysState)
    (calls : List ExtCall) (e : ExecFlags) (hcrit : rt.crit_event = true)
    (hev : env.lockout_events = [e]) (hrste : e.reset = true) :
    ∃ p, exec_alarm_crit rt env s calls = some p ∧
      p.1.sys_exec.alarm = false ∧ p.1.sys_exec.crit_event = false := by
  simp [exec_alarm_crit, lockout_wait, ExecFlags.or, hcrit, hev, hrste]

/-- The report/feed-hold/cycle-start/cycle-stop block never changes
the `EXEC_ALARM` and `EXEC_CRIT_EVENT` bits of `SYS_EXEC`. -/
theorem pass_flag_block_alarm_crit (rt : ExecFlags) (env : Env) (s : SysState)
    (calls : List ExtCall) :
    (pass_flag_block rt env s calls).1.sys_exec.alarm = s.sys_exec.alarm ∧
    (pass_flag_block rt env s calls).1.sys_exec.crit_event = s.sys_exec.crit_event := by
  obtain ⟨rm_core, -, -⟩ := exec_runtime_report_spec rt env s calls
  obtain ⟨-, -, -, -, m5, m6, -, -, -, -⟩ := rm_core
  obtain ⟨-, fh2, fh3⟩ :=
    exec_feed_hold_sys rt (exec_runtime_report rt env s calls).1
      (exec_runtime_report rt env s calls).2
  obtain ⟨cs1, -⟩ :=
    exec_cycle_start_sys rt env
      (exec_feed_hold rt (exec_runtime_report rt env s calls).1
        (exec_runtime_report rt env s calls).2).1
      (exec_feed_hold rt (exec_runtime_report rt env s calls).1
        (exec_runtime_report rt env s calls).2).2
  obtain ⟨-, -, cst3, cst4⟩ :=
    exec_cycle_stop_sys rt env
      (exec_cycle_start rt env
        (exec_feed_hold rt (exec_runtime_report rt env s calls).1
          (exec_runtime_report rt env s calls).2).1
        (exec_feed_hold rt (exec_runtime_report rt env s calls).1
          (exec_runtime_report rt env s calls).2).2).1
  unfold pass_flag_block
  dsimp only
  exact ⟨cst3.trans ((congrArg ExecFlags.alarm cs1).trans (fh2.trans m5)),
    cst4.trans ((congrArg ExecFlags.crit_event cs1).trans (fh3.trans m6))⟩

/-- C9: entering the critical-event lockout first clears any pending
`EXEC_RESET`, so a reset requested before the critical event cannot
terminate the lockout — with no interrupt activity the pass never
returns even though the reset bit was set at entry; a reset bit set by
an interrupt during the wait exits it, after which the `EXEC_ALARM`
and `EXEC_CRIT_EVENT` bits are cleared. -/
theorem crit_event_lockout_reset_semantics :
    (∀ (env : Env) (s : SysState), s.sys_exec.crit_event = true →
      s.sys_exec.reset = true → env.lockout_events = [] →
      protocol_execute_runtime env s = none) ∧
    (∀ (env : Env) (s : SysState) (e : ExecFlags), s.sys_exec.crit_event = true →
      env.lockout_events = [e] → e.reset = true →
      ∃ r, protocol_execute_runtime env s = some r ∧
        r.sys.sys_exec.alarm = false ∧ r.sys.sys_exec.crit_event = false) := by
  constructor
  · intro env s hcrit hrst hev
    have hany : s.sys_exec.any = true := by
      unfold ExecFlags.any
      simp [hcrit]
    unfold protocol_execute_runtime
    dsimp only
    rw [hany, exec_alarm_crit_none_of_no_event _ _ _ _ hcrit hev]
    rfl
  · intro env s e hcrit hev hrste
    have hany : s.sys_exec.any = true := by
      unfold ExecFlags.any
      simp [hcrit]
    obtain ⟨p, hac, hpa, hpc⟩ :=
      exec_alarm_crit_some_of_reset_event s.sys_exec env
        (protocol_check_required_reports env s) (pass_front_calls env s) e hcrit hev hrste
    unfold protocol_execute_runtime
    dsimp only
    rw [hany, hac]
    obtain ⟨b1, b2⟩ := pass_flag_block_alarm_crit s.sys_exec env p.1 p.2
    by_cases hrs : s.sys_exec.reset = true
    · simp only [hrs, if_true]
      exact ⟨_, rfl, hpa, hpc⟩
    · simp only [hrs, if_false]
      exact ⟨_, rfl, b1.trans hpa, b2.trans hpc⟩

/-- The wait loop of `protocol_buffer_synchronize` only returns with
abort set, or after observing an empty planner queue and a non-cycle
state. -/
theorem sync_loop_post (envs : List Env) :
    ∀ (s : SysState) (p : Env × SysState), sync_loop envs s = some p →
      p.2.abort = true ∨
        (p.1.plan_has_block = false ∧ p.2.state ≠ MachineState.CYCLE) := by
  induction envs with
  | nil =>
    intro s p h
    unfold sync_loop at h
    cases h
  | cons e rest ih =>
    intro s p h
    unfold sync_loop at h
    split at h
    · split at h
      · cases h
      · rename_i r hre
        split at h
        · rename_i habort
          cases h
          left
          exact habort
        · exact ih _ _ h
    · rename_i hcond
      cases h
      push_neg at hcond
      right
      exact ⟨by simpa using hcond.1, hcond.2⟩

/-- C7: whenever `protocol_buffer_synchronize` returns, either the
abort condition is set, or the planner queue was observed empty and
the state is no longer `STATE_CYCLE`; and as soon as a dispatcher pass
leaves abort set, the loop returns that state immediately,
regardless of any further pending iterations. -/
theorem buffer_synchronize_post :
    (∀ (envs : List Env) (s : SysState) (p : Env × SysState),
      protocol_buffer_synchronize envs s = some p →
      p.2.abort = true ∨
        (p.1.plan_has_block = false ∧ p.2.state ≠ MachineState.CYCLE)) ∧
    (∀ (e : Env) (rest : List Env) (s : SysState) (r : PassResult),
      (e.plan_has_block = true ∨ s.state = MachineState.CYCLE) →
      protocol_execute_runtime e s = some r → r.sys.abort = true →
      sync_loop (e :: rest) s = some (e, r.sys)) := by
  constructor
  · intro envs s p h
    unfold protocol_buffer_synchronize at h
    exact sync_loop_post envs _ p h
  · intro e rest s r hcond hpass habort
    unfold sync_loop
    rw [if_pos hcond, hpass]
    simp [habort]

/-- Witness for `feed_hold_during_cycle`: a concrete pass in
`STATE_CYCLE` with only the feed-hold bit set. -/
theorem feed_hold_during_cycle_witness :
    ∃ r, protocol_execute_runtime benign_env
        (mk_state MachineState.CYCLE MachineState.CYCLE
          { exec_clear with feed_hold := true }) = some r ∧
      r.sys.state = MachineState.HOLD ∧
      r.sys.autostart = false ∧
      r.sys.sys_exec.feed_hold = false ∧
      [ExtCall.st_update_plan_block_parameters, ExtCall.st_prep_buffer].Sublist r.calls :=
  feed_hold_during_cycle benign_env
    (mk_state MachineState.CYCLE MachineState.CYCLE { exec_clear with feed_hold := true })
    rfl rfl rfl rfl rfl rfl

/-- Witness for `feed_hold_outside_cycle`: a concrete pass in
`STATE_HOLD` with only the feed-hold bit set. -/
theorem feed_hold_outside_cycle_witness :
    ∃ r, protocol_execute_runtime benign_env
        (mk_state MachineState.HOLD MachineState.HOLD
          { exec_clear with feed_hold := true }) = some r ∧
      r.sys.state = (mk_state MachineState.HOLD MachineState.HOLD
          { exec_clear with feed_hold := true }).state ∧
      r.sys.autostart = (mk_state MachineState.HOLD MachineState.HOLD
          { exec_clear with feed_hold := true }).autostart ∧
      r.sys.sys_exec.feed_hold = false ∧
      r.calls.count ExtCall.st_update_plan_block_parameters = 0 ∧
      r.calls.count ExtCall.st_wake_up = 0 ∧
      r.calls.count ExtCall.st_prep_buffer =
        (if st_prep_states (mk_state MachineState.HOLD MachineState.HOLD
            { exec_clear with feed_hold := true }).state then 1 else 0) :=
  feed_hold_outside_cycle benign_env
    (mk_state MachineState.HOLD MachineState.HOLD { exec_clear with feed_hold := true })
    rfl rfl rfl rfl rfl rfl (by decide)

/-- Witness for `reset_short_circuits`: a concrete pass in
`STATE_IDLE` with only the reset bit set. -/
theorem reset_short_circuits_witness :
    c8_result.sys.abort = true ∧
    c8_result.sys.state =
      (if (mk_state MachineState.IDLE MachineState.IDLE
            { exec_clear with reset := true }).sys_exec.alarm ||
          (mk_state MachineState.IDLE MachineState.IDLE
            { exec_clear with reset := true }).sys_exec.crit_event then
        MachineState.ALARM
      else (mk_state MachineState.IDLE MachineState.IDLE
        { exec_clear with reset := true }).state) ∧
    c8_result.sys.autostart = (mk_state MachineState.IDLE MachineState.IDLE
      { exec_clear with reset := true }).autostart ∧
    ((mk_state MachineState.IDLE MachineState.IDLE
        { exec_clear with reset := true }).sys_exec.feed_hold = true →
      c8_result.sys.sys_exec.feed_hold = true) ∧
    ((mk_state MachineState.IDLE MachineState.IDLE
        { exec_clear with reset := true }).sys_exec.cycle_start = true →
      c8_result.sys.sys_exec.cycle_start = true) ∧
    ((mk_state MachineState.IDLE MachineState.IDLE
        { exec_clear with reset := true }).sys_exec.cycle_stop = true →
      c8_result.sys.sys_exec.cycle_stop = true) ∧
    c8_result.calls.count ExtCall.st_update_plan_block_parameters = 0 ∧
    c8_result.calls.count ExtCall.st_prep_buffer = 0 ∧
    c8_result.calls.count ExtCall.st_wake_up = 0 ∧
    c8_result.calls.count ExtCall.report_realtime_status = 0 ∧
    c8_result.calls.count ExtCall.report_limit_pins = 0 ∧
    c8_result.calls.count ExtCall.report_counters = 0 ∧
    c8_result.calls.count ExtCall.report_voltage = 0 ∧
    c8_result.calls.count ExtCall.report_edge_events = 0 :=
  reset_short_circuits benign_env
    (mk_state MachineState.IDLE MachineState.IDLE { exec_clear with reset := true })
    c8_result rfl (by decide)

/-- Witness for `crit_event_lockout_reset_semantics`: both conjuncts
at concrete inputs. -/
theorem crit_event_lockout_reset_semantics_witness :
    protocol_execute_runtime benign_env
      (mk_state MachineState.IDLE MachineState.IDLE
        { exec_clear with crit_event := true, reset := true }) = none ∧
    (∃ r, protocol_execute_runtime
        { benign_env with lockout_events := [{ exec_clear with reset := true }] }
        (mk_state MachineState.IDLE MachineState.IDLE
          { exec_clear with crit_event := true }) = some r ∧
      r.sys.sys_exec.alarm = false ∧ r.sys.sys_exec.crit_event = false) :=
  ⟨crit_event_lockout_reset_semantics.1 benign_env
      (mk_state MachineState.IDLE MachineState.IDLE
        { exec_clear with crit_event := true, reset := true }) rfl rfl rfl,
   crit_event_lockout_reset_semantics.2
      { benign_env with lockout_events := [{ exec_clear with reset := true }] }
      (mk_state MachineState.IDLE MachineState.IDLE
        { exec_clear with crit_event := true })
      { exec_clear with reset := true } rfl rfl rfl⟩

/-- Witness for `buffer_synchronize_post`: a concrete synchronize call
that exits at once with an empty planner queue in `STATE_IDLE`. -/
theorem buffer_synchronize_post_witness :
    (benign_env, mk_state MachineState.IDLE MachineState.IDLE exec_clear).2.abort = true ∨
      ((benign_env, mk_state MachineState.IDLE MachineState.IDLE exec_clear).1.plan_has_block
          = false ∧
        (benign_env,
          mk_state MachineState.IDLE MachineState.IDLE exec_clear).2.state ≠
          MachineState.CYCLE) :=
  buffer_synchronize_post.1 [benign_env]
    (mk_state MachineState.IDLE MachineState.IDLE exec_clear)
    (benign_env, mk_state MachineState.IDLE MachineState.IDLE exec_clear) (by decide)
